import Mathlib

/-!
Verification of the slurm_utils submission-script generator
(`generate_slurm_script.py`).

The generator is a pure string-building pipeline.  We embed every string it
builds as a `List String` of lines, where a list `[l1, l2, ...]` denotes the
text `l1 ++ "\n" ++ l2 ++ "\n" ++ ...` (each line is terminated by a newline).
Every Python template chunk ends with a newline, so Python string
concatenation corresponds exactly to list append, byte for byte; a field
value containing a newline simply lives inside one list element and the
denoted text is still exact.

Failures of the Python code are modelled explicitly:
* `job_directory[-1]` on the empty string raises `IndexError`;
* the partially-set affinity triple raises `ValueError` with a message;
* reading the unassigned local `args` in `SingularityCall.full_args`
  raises `UnboundLocalError`.
-/

inductive PyError where
  | indexError : PyError
  | valueError : String → PyError
  | unboundLocalError : PyError
deriving DecidableEq

/-- Dataclass `SlurmHeader` with its declared field defaults. -/
structure SlurmHeader where
  account : String
  partition : String := "standard"
  qos : String := "standard"
  job_name : String
  output : String := "slurm-%x-%j.out"
  error : String := "slurm-%x-%j.out"
  nodes : Int
  ntasks_per_node : Int
  time : Int × Int × Int
  switches : Int := -1
  distribution : String := ""
  hint : String := ""
  exclusive : Bool := false
  requeue : Bool := false
  mail_user : String := ""
  mail_type : String := ""
  bash_path : String := "!/bin/bash"
  job_directory : String := ""

/-- Dataclass `PythonCall`. -/
structure PythonCall where
  path : String := "python"
  args : String := ""
  script_name : String
  script_dir : String
  script_args : String := ""

/-- Dataclass `SrunCall`. -/
structure SrunCall where
  l3cores : Int := -1
  l3size : Int := -1
  nodesize : Int := -1
  args : String := ""
  xthi : Bool := false

/-- Dataclass `SingularityCall`. -/
structure SingularityCall where
  container : String
  args : String := ""
  bind_from : String := ""
  bind_to : String := ""
  home : String := ""
  directory : String := ""
  setup_file : String := ""

/-- Python `f"{t:02}"`: zero-pad the decimal rendering to width 2. -/
def pad2 (t : Int) : String :=
  let s := toString t
  if s.length < 2 then "0" ++ s else s

/-- Python `':'.join(map(lambda t: f'{t:02}', self.time))`. -/
def fmtTime (t : Int × Int × Int) : String :=
  pad2 t.1 ++ ":" ++ pad2 t.2.1 ++ ":" ++ pad2 t.2.2

/-- Left-to-right, non-overlapping replacement of the two-character pattern
`'%'`-then-`c` by `rep`, the semantics of Python `str.replace` for the
patterns `"%x"` and `"%j"`. -/
def substAux (c : Char) (rep : List Char) : List Char → List Char
  | [] => []
  | [a] => [a]
  | a :: b :: rest =>
    if a = '%' ∧ b = c then rep ++ substAux c rep rest
    else a :: substAux c rep (b :: rest)

/-- String-level wrapper for `substAux`. -/
def subst (c : Char) (rep s : String) : String := String.mk (substAux c rep.data s.data)

/-- Lines `f"#\n#SBATCH --{name}={value}\n"` emitted by the optionals loop of
`SlurmHeader.__str__` when the configured value differs from the declared
default, and by the flags loop when the flag is set; otherwise nothing. -/
def optBlock (c : Prop) [Decidable c] (l : String) : List String :=
  if c then ["#", l] else []

/-- Mandatory part of the `SlurmHeader.__str__` template, with `jd` the
job directory after trailing-slash stripping. -/
def mandLines (h : SlurmHeader) (jd : String) : List String :=
  ["#" ++ h.bash_path,
   "#",
   "#SBATCH --account=" ++ h.account,
   "#SBATCH --partition=" ++ h.partition,
   "#SBATCH --qos=" ++ h.qos,
   "#",
   "#SBATCH --job-name=" ++ h.job_name,
   "#SBATCH --output=" ++ (jd ++ ("/" ++ h.output)),
   "#SBATCH --error=" ++ (jd ++ ("/" ++ h.error)),
   "#",
   "#SBATCH --nodes=" ++ toString h.nodes,
   "#SBATCH --ntasks-per-node=" ++ toString h.ntasks_per_node,
   "#",
   "#SBATCH --time=" ++ fmtTime h.time]

/-- Loop over `SlurmHeader.optionals = (switches, distribution, hint,
mail_user, mail_type)`: each directive is emitted iff its value differs from
its declared dataclass default. -/
def optionalLines (h : SlurmHeader) : List String :=
  optBlock (h.switches ≠ -1) ("#SBATCH --switches=" ++ toString h.switches)
  ++ optBlock (h.distribution ≠ "") ("#SBATCH --distribution=" ++ h.distribution)
  ++ optBlock (h.hint ≠ "") ("#SBATCH --hint=" ++ h.hint)
  ++ optBlock (h.mail_user ≠ "") ("#SBATCH --mail-user=" ++ h.mail_user)
  ++ optBlock (h.mail_type ≠ "") ("#SBATCH --mail-type=" ++ h.mail_type)

/-- Loop over `SlurmHeader.flags = (exclusive, requeue)`: a bare directive is
emitted iff the flag is true. -/
def flagLines (h : SlurmHeader) : List String :=
  optBlock (h.exclusive = true) "#SBATCH --exclusive"
  ++ optBlock (h.requeue = true) "#SBATCH --requeue"

/-- `SlurmHeader.__str__`.  `job_directory[-1]` raises `IndexError` on the
empty string; otherwise a trailing `"/"` is stripped and the header template
is rendered. -/
def header_str (h : SlurmHeader) : Except PyError (List String) :=
  match h.job_directory.data.getLast? with
  | none => Except.error PyError.indexError
  | some c =>
    let jd := if c = '/' then String.mk h.job_directory.data.dropLast else h.job_directory
    Except.ok (mandLines h jd ++ optionalLines h ++ flagLines h)

/-- `SrunCall.cpu_map_cmd`: the deferred shell expression
`$(python3 -c "print(','.join(map(str,filter(lambda i: (i%S)<C, range(N)))))")`
with the three holes filled by its arguments (the source passes the shell
variable references as default arguments). -/
def cpu_map_cmd (l3size l3cores nodesize : String) : String :=
  "$(python3 -c \"print(\x27,\x27.join(map(str,filter(lambda i: (i%" ++ l3size
    ++ ")<" ++ l3cores ++ ", range(" ++ nodesize ++ ")))))\")"

/-- Affinity chunk of the `SrunCall.__str__` template (the part guarded by
the all-three-positive check). -/
def affinityLines (s : SrunCall) : List String :=
  ["",
   "# L3 cache is the lowest level of shared memory, with L3SIZE cores per cache",
   "# and NODESIZE/L3SIZE L3 caches per node. Using fewer than L3SIZE cores/L3",
   "# cache may improve strong scaling performance for memory bound applications.",
   "# The ntasks-per-node value must be equal to L3CORES*(NODESIZE/L3SIZE).",
   "",
   "L3CORES=" ++ toString s.l3cores,
   "L3SIZE=" ++ toString s.l3size,
   "NODESIZE=" ++ toString s.nodesize,
   "",
   "CPU_MAP=" ++ cpu_map_cmd "${L3SIZE}" "${L3CORES}" "${NODESIZE}"]

/-- Final chunk of the `SrunCall.__str__` template. -/
def srunTailLines (args : String) : List String :=
  ["",
   "SRUN_ARGS=\"" ++ (args ++ "\""),
   "SRUN_CALL=\"srun ${SRUN_ARGS}\""]

/-- `SrunCall.__str__`: if any of the affinity triple is positive then all
three must be, else `ValueError`; when all are positive the cpu-bind option
is appended to the args and the affinity chunk is emitted. -/
def srun_str (s : SrunCall) : Except PyError (List String) :=
  if 0 < s.l3cores ∨ 0 < s.l3size ∨ 0 < s.nodesize then
    if ¬(0 < s.l3cores ∧ 0 < s.l3size ∧ 0 < s.nodesize) then
      Except.error (PyError.valueError
        "Must set all of l3cores,l3size,nodesize to generate an srun cpu_map")
    else
      Except.ok (affinityLines s
        ++ srunTailLines (s.args ++ " --cpu_bind=map_cpu:${CPU_MAP}"))
  else
    Except.ok (srunTailLines s.args)

/-- Python `args.endswith(" ")`. -/
def endsWithSpace (a : String) : Bool := a.data.getLast? == some ' '

/-- `SingularityCall.full_args`.  The local `args` is only assigned when
`home != ""`; every later statement (including the final `return args`)
reads it, raising `UnboundLocalError` when it is unassigned.  The unassigned
state is the `Except.error PyError.unboundLocalError` value. -/
def full_args (sg : SingularityCall) : Except PyError String :=
  let args : Except PyError String :=
    if sg.home ≠ "" then Except.ok ("--home " ++ sg.home)
    else Except.error PyError.unboundLocalError
  let args : Except PyError String :=
    if sg.bind_from ≠ "" then
      args.bind fun a =>
        Except.ok ((if a ≠ "" ∧ ¬(endsWithSpace a = true) then a ++ " " else a)
          ++ ("--bind " ++ sg.bind_from))
    else args
  let args : Except PyError String :=
    if sg.bind_to ≠ "" then
      args.bind fun a => Except.ok (a ++ (":" ++ sg.bind_to))
    else args
  args

/-- Output/error path resolution of `generate_submission_script`:
`f"{header.job_directory}/{pattern}"` then `.replace("%x", "${SLURM_JOB_NAME}")`
then `.replace("%j", "${SLURM_JOB_ID}")`.  Note the raw, unstripped
`job_directory` is used here. -/
def resolve (jd pat : String) : String :=
  subst 'j' "${SLURM_JOB_ID}" (subst 'x' "${SLURM_JOB_NAME}" (jd ++ ("/" ++ pat)))

/-- Template lines of `generate_submission_script` before the `{srun}`
interpolation point. -/
def bodyPre (h : SlurmHeader) (py : PythonCall) (sg : SingularityCall) (sargs : String) :
    List String :=
  ["",
   "# exit on first error",
   "set -e",
   "",
   "# print commands",
   "set -x",
   "",
   "### === --- Unique identifier and directory",
   "",
   "JOBCODE=${SLURM_JOB_NAME}-${SLURM_JOB_ID}",
   "JOBDIR=" ++ (h.job_directory ++ "/${JOBCODE}"),
   "mkdir -p ${JOBDIR}",
   "",
   "### === --- Python scripts and arguments",
   "",
   "PYTHON_SCRIPT=" ++ py.script_name,
   "PYTHON_SCRIPT_DIR=" ++ py.script_dir,
   "",
   "PYTHON_SCRIPT_ARGS=\"" ++ (py.script_args ++ "\""),
   "",
   "### === --- Python executable",
   "",
   "PYTHON_ARGS=\"" ++ (py.args ++ "\""),
   "PYTHON_EXEC=\"" ++ (py.path ++ "\""),
   "",
   "PYTHON_CALL=\"${PYTHON_EXEC} ${PYTHON_ARGS}\"",
   "",
   "### === --- Setup the environment for singularity",
   "",
   "export SIFDIR=\"" ++ (sg.directory ++ "\""),
   "CONTAINER=\"" ++ (sg.container ++ "\""),
   "",
   "SINGULARITY_ARGS=\"" ++ (sargs ++ "\""),
   "SINGULARITY_CALL=\"singularity run ${SINGULARITY_ARGS}\"",
   "",
   "source ${SIFDIR}/" ++ sg.setup_file,
   "",
   "### === --- srun call",
   ""]

/-- Template lines of `generate_submission_script` after the `{srun}`
interpolation point, up to and including the output-file copy-back. -/
def bodyPost (sr : SrunCall) (output_file : String) : List String :=
  ["",
   "",
   "### === --- Print rank layout or not?",
   "",
   "RUN_XTHI=" ++ toString (if sr.xthi then (1 : Int) else 0),
   "",
   "### === --- ------------------------------------------------ --- === ###",
   "### === --- Usually won\x27t need to change anything below here --- === ###",
   "### === --- ------------------------------------------------ --- === ###",
   "",
   "### === --- Some job info for debugging",
   "",
   "set +x",
   "echo -e \"Job started at \" `date`",
   "echo \"\"",
   "",
   "echo \"What job is running?\"",
   "echo SLURM_JOB_ID          = $SLURM_JOB_ID",
   "echo SLURM_JOB_NAME        = $SLURM_JOB_NAME",
   "echo SLURM_JOB_ACCOUNT     = $SLURM_JOB_ACCOUNT",
   "echo \"\"",
   "",
   "echo \"Where is the job running?\"",
   "echo SLURM_CLUSTER_NAME    = $SLURM_CLUSTER_NAME",
   "echo SLURM_JOB_PARTITION   = $SLURM_JOB_PARTITION",
   "echo SLURM_JOB_QOS         = $SLURM_JOB_QOS",
   "echo SLURM_SUBMIT_DIR      = $SLURM_SUBMIT_DIR",
   "echo \"\"",
   "",
   "echo \"What are we running on?\"",
   "echo SLURM_DISTRIBUTION    = $SLURM_DISTRIBUTION",
   "echo SLURM_NTASKS          = $SLURM_NTASKS",
   "echo SLURM_NTASKS_PER_NODE = $SLURM_NTASKS_PER_NODE",
   "echo SLURM_JOB_NUM_NODES   = $SLURM_JOB_NUM_NODES",
   "echo SLURM_JOB_NODELIST    = $SLURM_JOB_NODELIST",
   "echo \"\"",
   "set -x",
   "",
   "### === --- Check the rank layout",
   "",
   "if [[ ${RUN_XTHI} -gt 0 ]]; then",
   "   export MPICH_ENV_DISPLAY=1",
   "   set +x",
   "   echo module load xthi",
   "   module load xthi",
   "   set -x",
   "   echo -e \"xthi started at \" `date`",
   "   $SRUN_CALL xthi > ${JOBDIR}/xthi.log 2>&1",
   "   echo -e \"xthi finished at \" `date`",
   "   unset MPICH_ENV_DISPLAY",
   "fi",
   "",
   "### === --- Copy files to nodes",
   "",
   "echo -e \"Start copying files to nodes: \" `date`",
   "echo -e \"\"",
   "",
   "TMP_SCRIPT=${JOBDIR}/${JOBCODE}-${PYTHON_SCRIPT}",
   "",
   "cp ${PYTHON_SCRIPT_DIR}/${PYTHON_SCRIPT} ${TMP_SCRIPT}",
   "",
   "sbcast --compress=none ${SIFDIR}/${CONTAINER} /tmp/${CONTAINER}",
   "",
   "### === --- Run the script",
   "",
   "set +x",
   "echo -e \"Script start time: \" `date`",
   "echo -e \"\"",
   "",
   "set -x",
   "${SRUN_CALL} ${SINGULARITY_CALL} /tmp/${CONTAINER} \\ ",
   "    ${PYTHON_CALL} ${TMP_SCRIPT} ${PYTHON_SCRIPT_ARGS}",
   "",
   "echo -e \"Script end time: \" `date`",
   "",
   "OUTPUT_FILE=" ++ output_file,
   "cp ${OUTPUT_FILE} ${JOBDIR}/${OUTPUT_FILE}"]

/-- Error-file copy-back chunk, appended only when the resolved error path
differs from the resolved output path. -/
def errLines (error_file : String) : List String :=
  ["",
   "ERROR_FILE=" ++ error_file,
   "cp ${ERROR_FILE} ${JOBDIR}/${ERROR_FILE}"]

/-- `generate_submission_script` (without the optional final file write,
which is out of scope of the string pipeline).  The f-string evaluates
`str(header)` first, then `singularity.full_args()`, then `str(srun)`; an
exception in any of them aborts the call. -/
def generate_submission_script (h : SlurmHeader) (py : PythonCall) (sr : SrunCall)
    (sg : SingularityCall) : Except PyError (List String) :=
  let output_file := resolve h.job_directory h.output
  let error_file := resolve h.job_directory h.error
  match header_str h with
  | Except.error e => Except.error e
  | Except.ok hdr =>
    match full_args sg with
    | Except.error e => Except.error e
    | Except.ok sargs =>
      match srun_str sr with
      | Except.error e => Except.error e
      | Except.ok srunL =>
        let script := hdr ++ (bodyPre h py sg sargs ++ (srunL ++ bodyPost sr output_file))
        Except.ok (if error_file ≠ output_file then script ++ errLines error_file else script)

/-- Value semantics of the emitted python one-liner
`filter(lambda i: (i%l3size)<l3cores, range(nodesize))` once the shell has
substituted the three emitted variables: the integers of `[0, nodesize)`
whose residue modulo `l3size` is below `l3cores`, in increasing order. -/
def cpuMapList (l3cores l3size nodesize : Int) : List Nat :=
  (List.range nodesize.toNat).filter (fun i => (i : Int) % l3size < l3cores)

/-- Value semantics of `','.join(map(str, ...))` over `cpuMapList`. -/
def cpuMapStr (l3cores l3size nodesize : Int) : String :=
  String.intercalate "," ((cpuMapList l3cores l3size nodesize).map toString)

/-- Concrete header used for witnesses and counterexamples: only mandatory
fields set, job directory `results`. -/
def hdrC : SlurmHeader :=
  { account := "a", job_name := "j", nodes := 1, ntasks_per_node := 1,
    time := (0, 5, 0), job_directory := "results" }

/-- Concrete program configuration used for witnesses and counterexamples. -/
def pyC : PythonCall := { script_name := "s.py", script_dir := "d" }

/-- Concrete launch configuration (no affinity triple) used for witnesses. -/
def srunC : SrunCall := {}

/-- Concrete container configuration (home set, so `full_args` succeeds). -/
def sgC : SingularityCall := { container := "c.sif", home := "hm" }

/-- Concrete header with one optional directive and one flag set, used for
the optional-directive and flag witnesses. -/
def hdrOpt : SlurmHeader :=
  { account := "a", job_name := "j", nodes := 1, ntasks_per_node := 1,
    time := (0, 5, 0), job_directory := "results", distribution := "block:block",
    exclusive := true }

/-- Rendered line list of `hdrOpt`. -/
def hdrOptL : List String :=
  mandLines hdrOpt "results" ++ optionalLines hdrOpt ++ flagLines hdrOpt

/-- Variant of `hdrC` whose job directory carries a trailing slash. -/
def hdrSlash : SlurmHeader := { hdrC with job_directory := "results/" }

/-- Variant of `hdrC` whose error pattern differs from its output pattern. -/
def hdrErr : SlurmHeader := { hdrC with error := "e.err" }

/-- Line list of the script generated from `hdrErr`, `pyC`, `srunC`, `sgC`. -/
def genEL : List String :=
  (generate_submission_script hdrErr pyC srunC sgC).toOption.getD []

/-- The affinity validation condition of `SrunCall.__str__`: some value of
the triple is positive but not all of them are. -/
def srunBad (s : SrunCall) : Prop :=
  (0 < s.l3cores ∨ 0 < s.l3size ∨ 0 < s.nodesize)
  ∧ ¬(0 < s.l3cores ∧ 0 < s.l3size ∧ 0 < s.nodesize)

/-! Helper lemmas shared by several claim theorems. -/

/-- Two strings with fixed prefixes differing at index `k` are different,
whatever is appended after the prefixes. -/
theorem ne_pp (p v q w : String) (k : Nat) (hp : k < p.data.length) (hq : k < q.data.length)
    (h : p.data[k]? ≠ q.data[k]?) : p ++ v ≠ q ++ w := by
  intro He
  have h2 : (p.data ++ v.data)[k]? = (q.data ++ w.data)[k]? := by
    rw [← String.data_append, ← String.data_append, He]
  rw [List.getElem?_append_left hp, List.getElem?_append_left hq] at h2
  exact h h2

/-- A string with fixed prefix `p` differing from the fixed string `t` at an
index inside `p` is different from `t`, whatever is appended after `p`. -/
theorem ne_pf (p v t : String) (k : Nat) (hp : k < p.data.length)
    (h : p.data[k]? ≠ t.data[k]?) : p ++ v ≠ t := by
  intro He
  have h2 : (p.data ++ v.data)[k]? = t.data[k]? := by
    rw [← String.data_append, He]
  rw [List.getElem?_append_left hp] at h2
  exact h h2

/-- If a line starting with `#` equals the shebang line `"#" ++ bp`, then
`bp` is that line with the leading `#` removed. -/
theorem shebang_collision (p v bp : String) (hp : p.data.head? = some '#')
    (h : p ++ v = "#" ++ bp) : bp = String.mk p.data.tail ++ v := by
  have h2 : p.data ++ v.data = '#' :: bp.data := by
    rw [← String.data_append, h]; rfl
  apply String.ext
  rw [String.data_append]
  cases hd : p.data with
  | nil => rw [hd] at hp; simp at hp
  | cons c t =>
    rw [hd] at h2
    rw [hd] at hp
    simp at hp
    subst hp
    simp only [List.cons_append, List.cons.injEq, true_and] at h2
    simp only [List.tail_cons]
    exact h2.symm

/-- Fixed-string version of `shebang_collision`. -/
theorem shebang_collision_fixed (t bp : String) (ht : t.data.head? = some '#')
    (h : t = "#" ++ bp) : bp = String.mk t.data.tail := by
  have h2 : t.data = '#' :: bp.data := by rw [h]; rfl
  apply String.ext
  cases hd : t.data with
  | nil => rw [hd] at ht; simp at ht
  | cons c l =>
    rw [hd] at h2
    rw [hd] at ht
    simp at ht
    subst ht
    simp only [List.cons.injEq, true_and] at h2
    simp only [List.tail_cons]
    exact h2.symm

/-- Membership in an `optBlock` is impossible for a line that is neither the
separator `#` nor the directive line. -/
theorem not_mem_optBlock (L x : String) (c : Prop) [Decidable c] (h1 : L ≠ "#") (h2 : L ≠ x) :
    L ∉ optBlock c x := by
  unfold optBlock; split <;> simp [h1, h2]

/-- The directive line of an `optBlock` is a member exactly when the
condition holds. -/
theorem mem_optBlock_self (x : String) (c : Prop) [Decidable c] (hx : x ≠ "#") :
    x ∈ optBlock c x ↔ c := by
  unfold optBlock
  split <;> simp_all

/-- Equality with the empty string is equality of the data lists. -/
theorem str_empty_iff (s : String) : s = "" ↔ s.data = [] := by
  constructor
  · intro He; rw [He]
  · intro He; apply String.ext; rw [He]

/-- `SlurmHeader.__str__` succeeds exactly on a non-empty job directory. -/
theorem headerOk_iff (h : SlurmHeader) : (header_str h).isOk = true ↔ h.job_directory ≠ "" := by
  unfold header_str
  cases hl : h.job_directory.data.getLast? with
  | none =>
    have hnil : h.job_directory.data = [] := List.getLast?_eq_none_iff.mp hl
    simp [Except.isOk, Except.toBool, str_empty_iff, hnil]
  | some c =>
    have hne : h.job_directory.data ≠ [] := by
      intro he; rw [he] at hl; simp at hl
    simp [Except.isOk, Except.toBool, str_empty_iff, hne]

/-- `SlurmHeader.__str__` raises `IndexError` exactly on an empty job
directory. -/
theorem headerErr_iff (h : SlurmHeader) :
    header_str h = Except.error PyError.indexError ↔ h.job_directory = "" := by
  unfold header_str
  cases hl : h.job_directory.data.getLast? with
  | none =>
    have hnil : h.job_directory.data = [] := List.getLast?_eq_none_iff.mp hl
    simp [str_empty_iff, hnil]
  | some c =>
    have hne : h.job_directory.data ≠ [] := by
      intro he; rw [he] at hl; simp at hl
    simp [str_empty_iff, hne]

/-- `SingularityCall.full_args` succeeds exactly when `home` is set. -/
theorem fullArgsOk_iff (sg : SingularityCall) : (full_args sg).isOk = true ↔ sg.home ≠ "" := by
  unfold full_args
  split_ifs <;> simp_all [Except.isOk, Except.toBool, Except.bind]

/-- `SingularityCall.full_args` raises `UnboundLocalError` whenever `home`
is unset, for every combination of the bind fields. -/
theorem fullArgsErr (sg : SingularityCall) (hh : sg.home = "") :
    full_args sg = Except.error PyError.unboundLocalError := by
  unfold full_args
  split_ifs <;> simp_all [Except.bind]

/-- `SrunCall.__str__` raises the `ValueError` exactly on a partially-set
affinity triple. -/
theorem srunErr_iff (s : SrunCall) :
    srun_str s = Except.error (PyError.valueError
      "Must set all of l3cores,l3size,nodesize to generate an srun cpu_map")
    ↔ srunBad s := by
  unfold srun_str srunBad
  split_ifs <;> simp_all

/-- `SrunCall.__str__` succeeds exactly when the affinity triple is not
partially set. -/
theorem srunOk_iff (s : SrunCall) : (srun_str s).isOk = true ↔ ¬srunBad s := by
  unfold srun_str srunBad
  split_ifs <;> simp_all [Except.isOk, Except.toBool]

/-- `generate_submission_script` succeeds exactly when all three fallible
renderers do. -/
theorem generateOk_iff (h : SlurmHeader) (py : PythonCall) (sr : SrunCall) (sg : SingularityCall) :
    (generate_submission_script h py sr sg).isOk = true
    ↔ (h.job_directory ≠ "" ∧ sg.home ≠ "" ∧ ¬srunBad sr) := by
  rw [← headerOk_iff, ← fullArgsOk_iff, ← srunOk_iff]
  unfold generate_submission_script
  cases header_str h <;> cases full_args sg <;> cases srun_str sr <;>
    simp [Except.isOk, Except.toBool]


/-! Claim theorems. -/

/-- C1 (counterexample): the claim that the affinity-triple validation is the
only failure in the pipeline is false: `SingularityCall.full_args` fails with
an unbound-variable error on an explicit configuration with `home` unset, and
`SlurmHeader.__str__` fails with an indexing error on an explicit header with
the default (empty) `job_directory`. -/
theorem nonlaunch_failure_exists :
    full_args { container := "c", bind_from := "/src" } = Except.error PyError.unboundLocalError
    ∧ header_str { account := "a", job_name := "j", nodes := 1, ntasks_per_node := 1
                   , time := (0, 5, 0) } = Except.error PyError.indexError :=
  ⟨rfl, rfl⟩

/-- C1 (amended): the pipeline has exactly three failure conditions: the
affinity validation in `SrunCall.__str__`, the empty `job_directory` indexing
error in `SlurmHeader.__str__`, and the empty `home` unbound-variable error
in `SingularityCall.full_args`; `generate_submission_script` (apart from the
optional file write) succeeds exactly when none of them occurs, and each of
the three renderers is total away from its failure condition. -/
theorem failure_conditions_characterization (h : SlurmHeader) (py : PythonCall)
    (sr : SrunCall) (sg : SingularityCall) :
    ((header_str h).isOk = true ↔ h.job_directory ≠ "")
    ∧ ((full_args sg).isOk = true ↔ sg.home ≠ "")
    ∧ ((srun_str sr).isOk = true ↔ ¬srunBad sr)
    ∧ ((generate_submission_script h py sr sg).isOk = true
        ↔ (h.job_directory ≠ "" ∧ sg.home ≠ "" ∧ ¬srunBad sr)) :=
  ⟨headerOk_iff h, fullArgsOk_iff sg, srunOk_iff sr, generateOk_iff h py sr sg⟩

/-- C2: `SrunCall.__str__` raises the "Must set all of" `ValueError` iff at
least one of `(l3cores, l3size, nodesize)` is positive but not all three are;
otherwise (none positive, or all positive) it succeeds. -/
theorem srun_validation_iff (s : SrunCall) :
    (srun_str s = Except.error (PyError.valueError
        "Must set all of l3cores,l3size,nodesize to generate an srun cpu_map")
      ↔ ((0 < s.l3cores ∨ 0 < s.l3size ∨ 0 < s.nodesize)
          ∧ ¬(0 < s.l3cores ∧ 0 < s.l3size ∧ 0 < s.nodesize)))
    ∧ ((srun_str s).isOk = true
      ↔ ¬((0 < s.l3cores ∨ 0 < s.l3size ∨ 0 < s.nodesize)
          ∧ ¬(0 < s.l3cores ∧ 0 < s.l3size ∧ 0 < s.nodesize))) :=
  ⟨srunErr_iff s, srunOk_iff s⟩

/-- C9: `SlurmHeader.__str__` fails with an out-of-range indexing error iff
`job_directory` is the empty string (its declared default); it succeeds iff
`job_directory` is non-empty. -/
theorem header_empty_dir_indexerror (h : SlurmHeader) :
    (header_str h = Except.error PyError.indexError ↔ h.job_directory = "")
    ∧ ((header_str h).isOk = true ↔ h.job_directory ≠ "") :=
  ⟨headerErr_iff h, headerOk_iff h⟩

/-- C8: whenever `home` is empty (its declared default), `full_args` fails
with the unbound-variable error regardless of `bind_from` and `bind_to`, and
composing a script with such a container configuration fails too. -/
theorem full_args_unbound_when_home_empty (sg : SingularityCall) (hh : sg.home = "") :
    full_args sg = Except.error PyError.unboundLocalError
    ∧ generate_submission_script hdrC pyC srunC sg = Except.error PyError.unboundLocalError := by
  refine ⟨fullArgsErr sg hh, ?_⟩
  unfold generate_submission_script
  rw [fullArgsErr sg hh]
  rfl

/-- C8 (witness): the failure at the concrete all-defaults container
configuration, bind fields empty as well. -/
theorem full_args_unbound_when_home_empty_witness :
    full_args { container := "c.sif" } = Except.error PyError.unboundLocalError
    ∧ generate_submission_script hdrC pyC srunC { container := "c.sif" }
      = Except.error PyError.unboundLocalError :=
  full_args_unbound_when_home_empty { container := "c.sif" } rfl

/-- C10: with `home` set, `bind_from` empty and `bind_to` set, `full_args`
returns `--home <home>:<bind_to>`: the `:<destination>` suffix lands directly
on the home argument although no `--bind <source>` was emitted. -/
theorem full_args_bindto_suffix (sg : SingularityCall) (hh : sg.home ≠ "")
    (hf : sg.bind_from = "") (ht : sg.bind_to ≠ "") :
    full_args sg = Except.ok ("--home " ++ sg.home ++ (":" ++ sg.bind_to)) := by
  unfold full_args
  split_ifs <;> simp_all [Except.bind]

/-- C10 (witness): the concrete instance `home = "/h"`, `bind_to = "/w"`. -/
theorem full_args_bindto_suffix_witness :
    full_args { container := "c", bind_to := "/w", home := "/h" }
      = Except.ok ("--home " ++ "/h" ++ (":" ++ "/w")) :=
  full_args_bindto_suffix { container := "c", bind_to := "/w", home := "/h" }
    (by decide) rfl (by decide)

/-- C3: for positive affinity triples, the deferred CPU-map expression
selects exactly the integers `i` of `[0, nodesize)` with
`i mod l3size < l3cores`, in increasing order; at `(2, 4, 8)` the selection
is `{0, 1, 4, 5}` and the comma-joined rendering is `"0,1,4,5"`; and the
rendered launch wrapper emits the `CPU_MAP=` assignment holding that
expression over the emitted shell variables. -/
theorem cpu_map_selection (c s n : Int) (hc : 0 < c) (hs : 0 < s) (hn : 0 < n) :
    (∀ i : Nat, i ∈ cpuMapList c s n ↔ ((i : Int) < n ∧ (i : Int) % s < c))
    ∧ (cpuMapList c s n).Pairwise (· < ·)
    ∧ cpuMapList 2 4 8 = [0, 1, 4, 5]
    ∧ cpuMapStr 2 4 8 = "0,1,4,5"
    ∧ (∃ l, srun_str { l3cores := c, l3size := s, nodesize := n } = Except.ok l
        ∧ ("CPU_MAP=" ++ cpu_map_cmd "${L3SIZE}" "${L3CORES}" "${NODESIZE}") ∈ l) := by
  refine ⟨?_, ?_, by decide, by decide, ?_⟩
  · intro i
    unfold cpuMapList
    simp only [List.mem_filter, List.mem_range, decide_eq_true_eq]
    constructor
    · rintro ⟨ha, hp⟩
      exact ⟨by omega, hp⟩
    · rintro ⟨hlt, hp⟩
      exact ⟨by omega, hp⟩
  · unfold cpuMapList
    exact List.Pairwise.filter _ (List.pairwise_lt_range n.toNat)
  · have hok : srun_str { l3cores := c, l3size := s, nodesize := n }
        = Except.ok (affinityLines { l3cores := c, l3size := s, nodesize := n }
            ++ srunTailLines ("" ++ " --cpu_bind=map_cpu:${CPU_MAP}")) := by
      unfold srun_str
      rw [if_pos (Or.inl hc), if_neg (by simp [hc, hs, hn])]
    refine ⟨_, hok, ?_⟩
    simp [affinityLines, srunTailLines]

/-- C3 (witness): the concrete triple `(2, 4, 8)`. -/
theorem cpu_map_selection_witness : cpuMapStr 2 4 8 = "0,1,4,5" :=
  (cpu_map_selection 2 4 8 (by decide) (by decide) (by decide)).2.2.2.1

/-! Header line-membership machinery for the optional-directive and flag
claims. -/

/-- Successful header rendering yields the mandatory block followed by the
optional and flag blocks, for the stripped job directory. -/
theorem header_ok_elim (h : SlurmHeader) (L : List String) (hL : header_str h = Except.ok L) :
    ∃ jd, L = mandLines h jd ++ optionalLines h ++ flagLines h := by
  revert hL
  unfold header_str
  cases h.job_directory.data.getLast? with
  | none => intro hL; exact absurd hL (by simp)
  | some c =>
    intro hL
    exact ⟨_, ((Except.ok.injEq _ _).mp hL).symm⟩

/-- The switches directive line never occurs in the mandatory block. -/
theorem switches_not_mem_mand (h : SlurmHeader) (jd : String)
    (hbp : h.bash_path ≠ "SBATCH --switches=" ++ toString h.switches) :
    ("#SBATCH --switches=" ++ toString h.switches) ∉ mandLines h jd := by
  unfold mandLines
  simp only [List.mem_cons, List.not_mem_nil, or_false, not_or]
  refine ⟨fun He => hbp (shebang_collision "#SBATCH --switches=" _ _ rfl He),
    ?_, ?_, ?_, ?_, ?_, ?_, ?_, ?_, ?_, ?_, ?_, ?_, ?_⟩
  all_goals first
    | exact ne_pf _ _ _ 1 (by decide) (by decide)
    | exact ne_pp _ _ _ _ 10 (by decide) (by decide) (by decide)

/-- The distribution directive line never occurs in the mandatory block. -/
theorem distribution_not_mem_mand (h : SlurmHeader) (jd : String)
    (hbp : h.bash_path ≠ "SBATCH --distribution=" ++ h.distribution) :
    ("#SBATCH --distribution=" ++ h.distribution) ∉ mandLines h jd := by
  unfold mandLines
  simp only [List.mem_cons, List.not_mem_nil, or_false, not_or]
  refine ⟨fun He => hbp (shebang_collision "#SBATCH --distribution=" _ _ rfl He),
    ?_, ?_, ?_, ?_, ?_, ?_, ?_, ?_, ?_, ?_, ?_, ?_, ?_⟩
  all_goals first
    | exact ne_pf _ _ _ 1 (by decide) (by decide)
    | exact ne_pp _ _ _ _ 10 (by decide) (by decide) (by decide)

/-- The hint directive line never occurs in the mandatory block. -/
theorem hint_not_mem_mand (h : SlurmHeader) (jd : String)
    (hbp : h.bash_path ≠ "SBATCH --hint=" ++ h.hint) :
    ("#SBATCH --hint=" ++ h.hint) ∉ mandLines h jd := by
  unfold mandLines
  simp only [List.mem_cons, List.not_mem_nil, or_false, not_or]
  refine ⟨fun He => hbp (shebang_collision "#SBATCH --hint=" _ _ rfl He),
    ?_, ?_, ?_, ?_, ?_, ?_, ?_, ?_, ?_, ?_, ?_, ?_, ?_⟩
  all_goals first
    | exact ne_pf _ _ _ 1 (by decide) (by decide)
    | exact ne_pp _ _ _ _ 10 (by decide) (by decide) (by decide)

/-- The mail-user directive line never occurs in the mandatory block. -/
theorem mail_user_not_mem_mand (h : SlurmHeader) (jd : String)
    (hbp : h.bash_path ≠ "SBATCH --mail-user=" ++ h.mail_user) :
    ("#SBATCH --mail-user=" ++ h.mail_user) ∉ mandLines h jd := by
  unfold mandLines
  simp only [List.mem_cons, List.not_mem_nil, or_false, not_or]
  refine ⟨fun He => hbp (shebang_collision "#SBATCH --mail-user=" _ _ rfl He),
    ?_, ?_, ?_, ?_, ?_, ?_, ?_, ?_, ?_, ?_, ?_, ?_, ?_⟩
  all_goals first
    | exact ne_pf _ _ _ 1 (by decide) (by decide)
    | exact ne_pp _ _ _ _ 10 (by decide) (by decide) (by decide)

/-- The mail-type directive line never occurs in the mandatory block. -/
theorem mail_type_not_mem_mand (h : SlurmHeader) (jd : String)
    (hbp : h.bash_path ≠ "SBATCH --mail-type=" ++ h.mail_type) :
    ("#SBATCH --mail-type=" ++ h.mail_type) ∉ mandLines h jd := by
  unfold mandLines
  simp only [List.mem_cons, List.not_mem_nil, or_false, not_or]
  refine ⟨fun He => hbp (shebang_collision "#SBATCH --mail-type=" _ _ rfl He),
    ?_, ?_, ?_, ?_, ?_, ?_, ?_, ?_, ?_, ?_, ?_, ?_, ?_⟩
  all_goals first
    | exact ne_pf _ _ _ 1 (by decide) (by decide)
    | exact ne_pp _ _ _ _ 10 (by decide) (by decide) (by decide)

/-- The bare exclusive flag line never occurs in the mandatory block. -/
theorem exclusive_not_mem_mand (h : SlurmHeader) (jd : String)
    (hbp : h.bash_path ≠ "SBATCH --exclusive") :
    ("#SBATCH --exclusive" : String) ∉ mandLines h jd := by
  unfold mandLines
  simp only [List.mem_cons, List.not_mem_nil, or_false, not_or]
  refine ⟨fun He => hbp (shebang_collision_fixed "#SBATCH --exclusive" _ rfl He),
    ?_, ?_, ?_, ?_, ?_, ?_, ?_, ?_, ?_, ?_, ?_, ?_, ?_⟩
  all_goals first
    | decide
    | exact Ne.symm (ne_pf _ _ _ 10 (by decide) (by decide))
    | exact Ne.symm (ne_pf _ _ _ 11 (by decide) (by decide))

/-- The bare requeue flag line never occurs in the mandatory block. -/
theorem requeue_not_mem_mand (h : SlurmHeader) (jd : String)
    (hbp : h.bash_path ≠ "SBATCH --requeue") :
    ("#SBATCH --requeue" : String) ∉ mandLines h jd := by
  unfold mandLines
  simp only [List.mem_cons, List.not_mem_nil, or_false, not_or]
  refine ⟨fun He => hbp (shebang_collision_fixed "#SBATCH --requeue" _ rfl He),
    ?_, ?_, ?_, ?_, ?_, ?_, ?_, ?_, ?_, ?_, ?_, ?_, ?_⟩
  all_goals first
    | decide
    | exact Ne.symm (ne_pf _ _ _ 10 (by decide) (by decide))

/-- C5: in a rendered header, each optional directive line (switches,
distribution, hint, mail-user, mail-type, underscores rendered as hyphens)
occurs iff the configured value differs from its declared default; the
hypotheses only rule out a `bash_path` that spells out such a directive line
itself. -/
theorem optional_directive_iff (h : SlurmHeader) (L : List String)
    (hL : header_str h = Except.ok L)
    (hb1 : h.bash_path ≠ "SBATCH --switches=" ++ toString h.switches)
    (hb2 : h.bash_path ≠ "SBATCH --distribution=" ++ h.distribution)
    (hb3 : h.bash_path ≠ "SBATCH --hint=" ++ h.hint)
    (hb4 : h.bash_path ≠ "SBATCH --mail-user=" ++ h.mail_user)
    (hb5 : h.bash_path ≠ "SBATCH --mail-type=" ++ h.mail_type) :
    (("#SBATCH --switches=" ++ toString h.switches) ∈ L ↔ h.switches ≠ -1)
    ∧ (("#SBATCH --distribution=" ++ h.distribution) ∈ L ↔ h.distribution ≠ "")
    ∧ (("#SBATCH --hint=" ++ h.hint) ∈ L ↔ h.hint ≠ "")
    ∧ (("#SBATCH --mail-user=" ++ h.mail_user) ∈ L ↔ h.mail_user ≠ "")
    ∧ (("#SBATCH --mail-type=" ++ h.mail_type) ∈ L ↔ h.mail_type ≠ "") := by
  obtain ⟨jd, rfl⟩ := header_ok_elim h L hL
  refine ⟨?_, ?_, ?_, ?_, ?_⟩
  · constructor
    · intro hmem
      rcases List.mem_append.mp hmem with hmo | hf
      · rcases List.mem_append.mp hmo with hm | ho
        · exact absurd hm (switches_not_mem_mand h jd hb1)
        · unfold optionalLines at ho
          simp only [List.mem_append] at ho
          rcases ho with ((((hA | hB) | hC) | hD) | hE)
          · exact (mem_optBlock_self _ _ (ne_pf _ _ _ 1 (by decide) (by decide))).mp hA
          · exact absurd hB (not_mem_optBlock _ _ _ (ne_pf _ _ _ 1 (by decide) (by decide))
              (ne_pp _ _ _ _ 10 (by decide) (by decide) (by decide)))
          · exact absurd hC (not_mem_optBlock _ _ _ (ne_pf _ _ _ 1 (by decide) (by decide))
              (ne_pp _ _ _ _ 10 (by decide) (by decide) (by decide)))
          · exact absurd hD (not_mem_optBlock _ _ _ (ne_pf _ _ _ 1 (by decide) (by decide))
              (ne_pp _ _ _ _ 10 (by decide) (by decide) (by decide)))
          · exact absurd hE (not_mem_optBlock _ _ _ (ne_pf _ _ _ 1 (by decide) (by decide))
              (ne_pp _ _ _ _ 10 (by decide) (by decide) (by decide)))
      · unfold flagLines at hf
        simp only [List.mem_append] at hf
        rcases hf with hX | hY
        · exact absurd hX (not_mem_optBlock _ _ _ (ne_pf _ _ _ 1 (by decide) (by decide))
            (ne_pf _ _ _ 10 (by decide) (by decide)))
        · exact absurd hY (not_mem_optBlock _ _ _ (ne_pf _ _ _ 1 (by decide) (by decide))
            (ne_pf _ _ _ 10 (by decide) (by decide)))
    · intro hc
      have hx := (mem_optBlock_self ("#SBATCH --switches=" ++ toString h.switches)
        (h.switches ≠ -1) (ne_pf _ _ _ 1 (by decide) (by decide))).mpr hc
      unfold optionalLines
      exact List.mem_append_left _ (List.mem_append_right _ (List.mem_append_left _
        (List.mem_append_left _ (List.mem_append_left _ (List.mem_append_left _ hx)))))
  · constructor
    · intro hmem
      rcases List.mem_append.mp hmem with hmo | hf
      · rcases List.mem_append.mp hmo with hm | ho
        · exact absurd hm (distribution_not_mem_mand h jd hb2)
        · unfold optionalLines at ho
          simp only [List.mem_append] at ho
          rcases ho with ((((hA | hB) | hC) | hD) | hE)
          · exact absurd hA (not_mem_optBlock _ _ _ (ne_pf _ _ _ 1 (by decide) (by decide))
              (ne_pp _ _ _ _ 10 (by decide) (by decide) (by decide)))
          · exact (mem_optBlock_self _ _ (ne_pf _ _ _ 1 (by decide) (by decide))).mp hB
          · exact absurd hC (not_mem_optBlock _ _ _ (ne_pf _ _ _ 1 (by decide) (by decide))
              (ne_pp _ _ _ _ 10 (by decide) (by decide) (by decide)))
          · exact absurd hD (not_mem_optBlock _ _ _ (ne_pf _ _ _ 1 (by decide) (by decide))
              (ne_pp _ _ _ _ 10 (by decide) (by decide) (by decide)))
          · exact absurd hE (not_mem_optBlock _ _ _ (ne_pf _ _ _ 1 (by decide) (by decide))
              (ne_pp _ _ _ _ 10 (by decide) (by decide) (by decide)))
      · unfold flagLines at hf
        simp only [List.mem_append] at hf
        rcases hf with hX | hY
        · exact absurd hX (not_mem_optBlock _ _ _ (ne_pf _ _ _ 1 (by decide) (by decide))
            (ne_pf _ _ _ 10 (by decide) (by decide)))
        · exact absurd hY (not_mem_optBlock _ _ _ (ne_pf _ _ _ 1 (by decide) (by decide))
            (ne_pf _ _ _ 10 (by decide) (by decide)))
    · intro hc
      have hx := (mem_optBlock_self ("#SBATCH --distribution=" ++ h.distribution)
        (h.distribution ≠ "") (ne_pf _ _ _ 1 (by decide) (by decide))).mpr hc
      unfold optionalLines
      exact List.mem_append_left _ (List.mem_append_right _ (List.mem_append_left _
        (List.mem_append_left _ (List.mem_append_left _ (List.mem_append_right _ hx)))))
  · constructor
    · intro hmem
      rcases List.mem_append.mp hmem with hmo | hf
      · rcases List.mem_append.mp hmo with hm | ho
        · exact absurd hm (hint_not_mem_mand h jd hb3)
        · unfold optionalLines at ho
          simp only [List.mem_append] at ho
          rcases ho with ((((hA | hB) | hC) | hD) | hE)
          · exact absurd hA (not_mem_optBlock _ _ _ (ne_pf _ _ _ 1 (by decide) (by decide))
              (ne_pp _ _ _ _ 10 (by decide) (by decide) (by decide)))
          · exact absurd hB (not_mem_optBlock _ _ _ (ne_pf _ _ _ 1 (by decide) (by decide))
              (ne_pp _ _ _ _ 10 (by decide) (by decide) (by decide)))
          · exact (mem_optBlock_self _ _ (ne_pf _ _ _ 1 (by decide) (by decide))).mp hC
          · exact absurd hD (not_mem_optBlock _ _ _ (ne_pf _ _ _ 1 (by decide) (by decide))
              (ne_pp _ _ _ _ 10 (by decide) (by decide) (by decide)))
          · exact absurd hE (not_mem_optBlock _ _ _ (ne_pf _ _ _ 1 (by decide) (by decide))
              (ne_pp _ _ _ _ 10 (by decide) (by decide) (by decide)))
      · unfold flagLines at hf
        simp only [List.mem_append] at hf
        rcases hf with hX | hY
        · exact absurd hX (not_mem_optBlock _ _ _ (ne_pf _ _ _ 1 (by decide) (by decide))
            (ne_pf _ _ _ 10 (by decide) (by decide)))
        · exact absurd hY (not_mem_optBlock _ _ _ (ne_pf _ _ _ 1 (by decide) (by decide))
            (ne_pf _ _ _ 10 (by decide) (by decide)))
    · intro hc
      have hx := (mem_optBlock_self ("#SBATCH --hint=" ++ h.hint)
        (h.hint ≠ "") (ne_pf _ _ _ 1 (by decide) (by decide))).mpr hc
      unfold optionalLines
      exact List.mem_append_left _ (List.mem_append_right _ (List.mem_append_left _
        (List.mem_append_left _ (List.mem_append_right _ hx))))
  · constructor
    · intro hmem
      rcases List.mem_append.mp hmem with hmo | hf
      · rcases List.mem_append.mp hmo with hm | ho
        · exact absurd hm (mail_user_not_mem_mand h jd hb4)
        · unfold optionalLines at ho
          simp only [List.mem_append] at ho
          rcases ho with ((((hA | hB) | hC) | hD) | hE)
          · exact absurd hA (not_mem_optBlock _ _ _ (ne_pf _ _ _ 1 (by decide) (by decide))
              (ne_pp _ _ _ _ 10 (by decide) (by decide) (by decide)))
          · exact absurd hB (not_mem_optBlock _ _ _ (ne_pf _ _ _ 1 (by decide) (by decide))
              (ne_pp _ _ _ _ 10 (by decide) (by decide) (by decide)))
          · exact absurd hC (not_mem_optBlock _ _ _ (ne_pf _ _ _ 1 (by decide) (by decide))
              (ne_pp _ _ _ _ 10 (by decide) (by decide) (by decide)))
          · exact (mem_optBlock_self _ _ (ne_pf _ _ _ 1 (by decide) (by decide))).mp hD
          · exact absurd hE (not_mem_optBlock _ _ _ (ne_pf _ _ _ 1 (by decide) (by decide))
              (ne_pp _ _ _ _ 15 (by decide) (by decide) (by decide)))
      · unfold flagLines at hf
        simp only [List.mem_append] at hf
        rcases hf with hX | hY
        · exact absurd hX (not_mem_optBlock _ _ _ (ne_pf _ _ _ 1 (by decide) (by decide))
            (ne_pf _ _ _ 10 (by decide) (by decide)))
        · exact absurd hY (not_mem_optBlock _ _ _ (ne_pf _ _ _ 1 (by decide) (by decide))
            (ne_pf _ _ _ 10 (by decide) (by decide)))
    · intro hc
      have hx := (mem_optBlock_self ("#SBATCH --mail-user=" ++ h.mail_user)
        (h.mail_user ≠ "") (ne_pf _ _ _ 1 (by decide) (by decide))).mpr hc
      unfold optionalLines
      exact List.mem_append_left _ (List.mem_append_right _ (List.mem_append_left _
        (List.mem_append_right _ hx)))
  · constructor
    · intro hmem
      rcases List.mem_append.mp hmem with hmo | hf
      · rcases List.mem_append.mp hmo with hm | ho
        · exact absurd hm (mail_type_not_mem_mand h jd hb5)
        · unfold optionalLines at ho
          simp only [List.mem_append] at ho
          rcases ho with ((((hA | hB) | hC) | hD) | hE)
          · exact absurd hA (not_mem_optBlock _ _ _ (ne_pf _ _ _ 1 (by decide) (by decide))
              (ne_pp _ _ _ _ 10 (by decide) (by decide) (by decide)))
          · exact absurd hB (not_mem_optBlock _ _ _ (ne_pf _ _ _ 1 (by decide) (by decide))
              (ne_pp _ _ _ _ 10 (by decide) (by decide) (by decide)))
          · exact absurd hC (not_mem_optBlock _ _ _ (ne_pf _ _ _ 1 (by decide) (by decide))
              (ne_pp _ _ _ _ 10 (by decide) (by decide) (by decide)))
          · exact absurd hD (not_mem_optBlock _ _ _ (ne_pf _ _ _ 1 (by decide) (by decide))
              (ne_pp _ _ _ _ 15 (by decide) (by decide) (by decide)))
          · exact (mem_optBlock_self _ _ (ne_pf _ _ _ 1 (by decide) (by decide))).mp hE
      · unfold flagLines at hf
        simp only [List.mem_append] at hf
        rcases hf with hX | hY
        · exact absurd hX (not_mem_optBlock _ _ _ (ne_pf _ _ _ 1 (by decide) (by decide))
            (ne_pf _ _ _ 10 (by decide) (by decide)))
        · exact absurd hY (not_mem_optBlock _ _ _ (ne_pf _ _ _ 1 (by decide) (by decide))
            (ne_pf _ _ _ 10 (by decide) (by decide)))
    · intro hc
      have hx := (mem_optBlock_self ("#SBATCH --mail-type=" ++ h.mail_type)
        (h.mail_type ≠ "") (ne_pf _ _ _ 1 (by decide) (by decide))).mpr hc
      unfold optionalLines
      exact List.mem_append_left _ (List.mem_append_right _ (List.mem_append_right _ hx))

/-- C5 (witness): the concrete header `hdrOpt`, whose distribution is
`block:block` and whose other optionals keep their defaults. -/
theorem optional_directive_iff_witness :
    (("#SBATCH --switches=" ++ toString hdrOpt.switches) ∈ hdrOptL ↔ hdrOpt.switches ≠ -1)
    ∧ (("#SBATCH --distribution=" ++ hdrOpt.distribution) ∈ hdrOptL ↔ hdrOpt.distribution ≠ "")
    ∧ (("#SBATCH --hint=" ++ hdrOpt.hint) ∈ hdrOptL ↔ hdrOpt.hint ≠ "")
    ∧ (("#SBATCH --mail-user=" ++ hdrOpt.mail_user) ∈ hdrOptL ↔ hdrOpt.mail_user ≠ "")
    ∧ (("#SBATCH --mail-type=" ++ hdrOpt.mail_type) ∈ hdrOptL ↔ hdrOpt.mail_type ≠ "") :=
  optional_directive_iff hdrOpt hdrOptL rfl (by decide) (by decide) (by decide)
    (by decide) (by decide)

/-- C7: in a rendered header, the bare `#SBATCH --exclusive` line occurs iff
the exclusive flag is true, and the bare `#SBATCH --requeue` line occurs iff
the requeue flag is true; the hypotheses only rule out a `bash_path` that
spells out such a flag line itself. -/
theorem flag_directive_iff (h : SlurmHeader) (L : List String)
    (hL : header_str h = Except.ok L)
    (hbe : h.bash_path ≠ "SBATCH --exclusive")
    (hbr : h.bash_path ≠ "SBATCH --requeue") :
    (("#SBATCH --exclusive" : String) ∈ L ↔ h.exclusive = true)
    ∧ (("#SBATCH --requeue" : String) ∈ L ↔ h.requeue = true) := by
  obtain ⟨jd, rfl⟩ := header_ok_elim h L hL
  constructor
  · constructor
    · intro hmem
      rcases List.mem_append.mp hmem with hmo | hf
      · rcases List.mem_append.mp hmo with hm | ho
        · exact absurd hm (exclusive_not_mem_mand h jd hbe)
        · unfold optionalLines at ho
          simp only [List.mem_append] at ho
          rcases ho with ((((hA | hB) | hC) | hD) | hE)
          · exact absurd hA (not_mem_optBlock _ _ _ (by decide)
              (Ne.symm (ne_pf _ _ _ 10 (by decide) (by decide))))
          · exact absurd hB (not_mem_optBlock _ _ _ (by decide)
              (Ne.symm (ne_pf _ _ _ 10 (by decide) (by decide))))
          · exact absurd hC (not_mem_optBlock _ _ _ (by decide)
              (Ne.symm (ne_pf _ _ _ 10 (by decide) (by decide))))
          · exact absurd hD (not_mem_optBlock _ _ _ (by decide)
              (Ne.symm (ne_pf _ _ _ 10 (by decide) (by decide))))
          · exact absurd hE (not_mem_optBlock _ _ _ (by decide)
              (Ne.symm (ne_pf _ _ _ 10 (by decide) (by decide))))
      · unfold flagLines at hf
        simp only [List.mem_append] at hf
        rcases hf with hX | hY
        · exact (mem_optBlock_self _ _ (by decide)).mp hX
        · exact absurd hY (not_mem_optBlock _ _ _ (by decide) (by decide))
    · intro hc
      have hx := (mem_optBlock_self ("#SBATCH --exclusive" : String)
        (h.exclusive = true) (by decide)).mpr hc
      unfold flagLines
      exact List.mem_append_right _ (List.mem_append_left _ hx)
  · constructor
    · intro hmem
      rcases List.mem_append.mp hmem with hmo | hf
      · rcases List.mem_append.mp hmo with hm | ho
        · exact absurd hm (requeue_not_mem_mand h jd hbr)
        · unfold optionalLines at ho
          simp only [List.mem_append] at ho
          rcases ho with ((((hA | hB) | hC) | hD) | hE)
          · exact absurd hA (not_mem_optBlock _ _ _ (by decide)
              (Ne.symm (ne_pf _ _ _ 10 (by decide) (by decide))))
          · exact absurd hB (not_mem_optBlock _ _ _ (by decide)
              (Ne.symm (ne_pf _ _ _ 10 (by decide) (by decide))))
          · exact absurd hC (not_mem_optBlock _ _ _ (by decide)
              (Ne.symm (ne_pf _ _ _ 10 (by decide) (by decide))))
          · exact absurd hD (not_mem_optBlock _ _ _ (by decide)
              (Ne.symm (ne_pf _ _ _ 10 (by decide) (by decide))))
          · exact absurd hE (not_mem_optBlock _ _ _ (by decide)
              (Ne.symm (ne_pf _ _ _ 10 (by decide) (by decide))))
      · unfold flagLines at hf
        simp only [List.mem_append] at hf
        rcases hf with hX | hY
        · exact absurd hX (not_mem_optBlock _ _ _ (by decide) (by decide))
        · exact (mem_optBlock_self _ _ (by decide)).mp hY
    · intro hc
      have hx := (mem_optBlock_self ("#SBATCH --requeue" : String)
        (h.requeue = true) (by decide)).mpr hc
      unfold flagLines
      exact List.mem_append_right _ (List.mem_append_right _ hx)

/-- C7 (witness): the concrete header `hdrOpt`, whose exclusive flag is true
and requeue flag is false. -/
theorem flag_directive_iff_witness :
    (("#SBATCH --exclusive" : String) ∈ hdrOptL ↔ hdrOpt.exclusive = true)
    ∧ (("#SBATCH --requeue" : String) ∈ hdrOptL ↔ hdrOpt.requeue = true) :=
  flag_directive_iff hdrOpt hdrOptL rfl (by decide) (by decide)

/-- C4 (counterexample): with `job_directory = "results/"` instead of
`"results"` (all else equal), `generate_submission_script` output is not
byte-identical: the script body interpolates the unstripped directory, e.g.
`JOBDIR=results//${JOBCODE}`. -/
theorem trailing_slash_script_differs :
    generate_submission_script hdrC pyC srunC sgC
      ≠ generate_submission_script hdrSlash pyC srunC sgC := by
  intro He
  have h2 := congrArg
    (fun r => ((Except.toOption r).getD []).contains "JOBDIR=results//${JOBCODE}") He
  exact absurd h2 (by decide)

/-- C4 (amended): the rendered header alone is byte-identical under a
trailing slash on the job directory (the renderer strips it), even though
the composed script is not. -/
theorem trailing_slash_header_invariant (h : SlurmHeader) (d : String)
    (hne : d ≠ "") (hsl : d.data.getLast? ≠ some '/') :
    header_str { h with job_directory := d ++ "/" }
      = header_str { h with job_directory := d } := by
  obtain ⟨c, hc⟩ : ∃ c, d.data.getLast? = some c := by
    cases hg : d.data.getLast? with
    | none => exact absurd ((str_empty_iff d).mpr (List.getLast?_eq_none_iff.mp hg)) hne
    | some c => exact ⟨c, rfl⟩
  have hcne : c ≠ '/' := fun He => hsl (He ▸ hc)
  have hdata : (d ++ "/").data = d.data ++ ['/'] := by
    rw [String.data_append]
  unfold header_str
  rw [show ({ h with job_directory := d ++ "/" } : SlurmHeader).job_directory = d ++ "/" from rfl,
    show ({ h with job_directory := d } : SlurmHeader).job_directory = d from rfl,
    hdata, List.getLast?_concat, hc]
  simp only [List.dropLast_concat, if_neg hcne, if_pos rfl]
  rfl

/-- C4 (witness): the header of `hdrC` with `"results/"` versus
`"results"`. -/
theorem trailing_slash_header_invariant_witness :
    header_str { hdrC with job_directory := "results" ++ "/" }
      = header_str { hdrC with job_directory := "results" } :=
  trailing_slash_header_invariant hdrC "results" (by decide) (by decide)

/-! Machinery for the error-copy-back claim: the `cp ${ERROR_FILE} ...` line
occurs nowhere in the script stem. -/

/-- Every line contributed by an `optBlock` whose directive line starts with
`#` itself starts with `#`. -/
theorem mem_optBlock_head (x l : String) (c : Prop) [Decidable c]
    (hl : l.data.head? = some '#') (hx : x ∈ optBlock c l) : x.data.head? = some '#' := by
  unfold optBlock at hx
  split at hx
  · simp only [List.mem_cons, List.not_mem_nil, or_false] at hx
    rcases hx with rfl | rfl
    · rfl
    · exact hl
  · simp at hx

/-- Every line of a rendered header starts with `#`. -/
theorem header_line_head (h : SlurmHeader) (jd : String) (x : String)
    (hx : x ∈ mandLines h jd ++ optionalLines h ++ flagLines h) :
    x.data.head? = some '#' := by
  rcases List.mem_append.mp hx with hmo | hf
  · rcases List.mem_append.mp hmo with hm | ho
    · unfold mandLines at hm
      simp only [List.mem_cons, List.not_mem_nil, or_false] at hm
      rcases hm with rfl|rfl|rfl|rfl|rfl|rfl|rfl|rfl|rfl|rfl|rfl|rfl|rfl|rfl <;> rfl
    · unfold optionalLines at ho
      simp only [List.mem_append] at ho
      rcases ho with ((((hA | hB) | hC) | hD) | hE)
      · exact mem_optBlock_head _ _ _ (by rfl) hA
      · exact mem_optBlock_head _ _ _ (by rfl) hB
      · exact mem_optBlock_head _ _ _ (by rfl) hC
      · exact mem_optBlock_head _ _ _ (by rfl) hD
      · exact mem_optBlock_head _ _ _ (by rfl) hE
  · unfold flagLines at hf
    rcases List.mem_append.mp hf with hX | hY
    · exact mem_optBlock_head _ _ _ (by rfl) hX
    · exact mem_optBlock_head _ _ _ (by rfl) hY

/-- The error copy-back line occurs nowhere before the srun block. -/
theorem errcp_not_mem_bodyPre (h : SlurmHeader) (py : PythonCall) (sg : SingularityCall)
    (sargs : String) :
    ("cp ${ERROR_FILE} ${JOBDIR}/${ERROR_FILE}" : String) ∉ bodyPre h py sg sargs := by
  unfold bodyPre
  simp only [List.mem_cons, List.not_mem_nil, or_false, not_or]
  repeat' apply And.intro
  all_goals first
    | decide
    | exact Ne.symm (ne_pf _ _ _ 0 (by decide) (by decide))

/-- The error copy-back line occurs nowhere in the srun tail chunk. -/
theorem errcp_not_mem_srunTail (args : String) :
    ("cp ${ERROR_FILE} ${JOBDIR}/${ERROR_FILE}" : String) ∉ srunTailLines args := by
  unfold srunTailLines
  simp only [List.mem_cons, List.not_mem_nil, or_false, not_or]
  repeat' apply And.intro
  all_goals first
    | decide
    | exact Ne.symm (ne_pf _ _ _ 0 (by decide) (by decide))

/-- The error copy-back line occurs nowhere in the affinity chunk. -/
theorem errcp_not_mem_affinity (sr : SrunCall) :
    ("cp ${ERROR_FILE} ${JOBDIR}/${ERROR_FILE}" : String) ∉ affinityLines sr := by
  unfold affinityLines
  simp only [List.mem_cons, List.not_mem_nil, or_false, not_or]
  repeat' apply And.intro
  all_goals first
    | decide
    | exact Ne.symm (ne_pf _ _ _ 0 (by decide) (by decide))

/-- The error copy-back line occurs nowhere in a rendered launch-wrapper
block. -/
theorem errcp_not_mem_srun (sr : SrunCall) (l : List String)
    (hs : srun_str sr = Except.ok l) :
    ("cp ${ERROR_FILE} ${JOBDIR}/${ERROR_FILE}" : String) ∉ l := by
  revert hs
  unfold srun_str
  split_ifs <;> intro hs
  · have h2 := (Except.ok.injEq _ _).mp hs
    subst h2
    intro hmem
    rcases List.mem_append.mp hmem with ha | ht
    · exact absurd ha (errcp_not_mem_affinity sr)
    · exact absurd ht (errcp_not_mem_srunTail _)
  · exact absurd hs (by simp)
  · have h2 := (Except.ok.injEq _ _).mp hs
    subst h2
    exact errcp_not_mem_srunTail _

/-- The error copy-back line occurs nowhere after the srun block up to and
including the output copy-back. -/
theorem errcp_not_mem_bodyPost (sr : SrunCall) (output_file : String) :
    ("cp ${ERROR_FILE} ${JOBDIR}/${ERROR_FILE}" : String) ∉ bodyPost sr output_file := by
  unfold bodyPost
  simp only [List.mem_cons, List.not_mem_nil, or_false, not_or]
  repeat' apply And.intro
  all_goals first
    | decide
    | exact Ne.symm (ne_pf _ _ _ 0 (by decide) (by decide))

/-- Successful generation yields the stem (header, pre-srun body, srun block,
post-srun body) with the error copy-back chunk appended exactly when the
resolved error path differs from the resolved output path. -/
theorem generate_ok_elim (h : SlurmHeader) (py : PythonCall) (sr : SrunCall)
    (sg : SingularityCall) (L : List String)
    (hL : generate_submission_script h py sr sg = Except.ok L) :
    ∃ hdr sargs srunL,
      header_str h = Except.ok hdr ∧ full_args sg = Except.ok sargs
      ∧ srun_str sr = Except.ok srunL
      ∧ L = if resolve h.job_directory h.error ≠ resolve h.job_directory h.output
          then hdr ++ (bodyPre h py sg sargs ++ (srunL ++ bodyPost sr (resolve h.job_directory h.output)))
            ++ errLines (resolve h.job_directory h.error)
          else hdr ++ (bodyPre h py sg sargs ++ (srunL ++ bodyPost sr (resolve h.job_directory h.output))) := by
  unfold generate_submission_script at hL
  cases hh : header_str h with
  | error e => rw [hh] at hL; exact absurd hL (by simp)
  | ok hdr =>
    rw [hh] at hL
    cases hf : full_args sg with
    | error e => rw [hf] at hL; exact absurd hL (by simp)
    | ok sargs =>
      rw [hf] at hL
      cases hs : srun_str sr with
      | error e => rw [hs] at hL; exact absurd hL (by simp)
      | ok srunL =>
        rw [hs] at hL
        exact ⟨hdr, sargs, srunL, rfl, rfl, rfl, ((Except.ok.injEq _ _).mp hL).symm⟩

/-- C6: in a generated script, the output path resolves to
`job_directory ++ "/" ++ output` with `%x` replaced by `${SLURM_JOB_NAME}`
and `%j` by `${SLURM_JOB_ID}` (concretely,
`results/slurm-${SLURM_JOB_NAME}-${SLURM_JOB_ID}.out`), the `OUTPUT_FILE`
assignment always occurs, and the error copy-back block occurs iff the
resolved error path differs from the resolved output path by string
equality. -/
theorem error_copyback_iff (h : SlurmHeader) (py : PythonCall) (sr : SrunCall)
    (sg : SingularityCall) (L : List String)
    (hL : generate_submission_script h py sr sg = Except.ok L) :
    resolve "results" "slurm-%x-%j.out"
        = "results/slurm-${SLURM_JOB_NAME}-${SLURM_JOB_ID}.out"
    ∧ ("OUTPUT_FILE=" ++ resolve h.job_directory h.output) ∈ L
    ∧ (resolve h.job_directory h.error ≠ resolve h.job_directory h.output →
        ("ERROR_FILE=" ++ resolve h.job_directory h.error) ∈ L
        ∧ ("cp ${ERROR_FILE} ${JOBDIR}/${ERROR_FILE}" : String) ∈ L)
    ∧ (resolve h.job_directory h.error = resolve h.job_directory h.output →
        ("cp ${ERROR_FILE} ${JOBDIR}/${ERROR_FILE}" : String) ∉ L) := by
  obtain ⟨hdr, sargs, srunL, hh, hf, hs, rfl⟩ := generate_ok_elim h py sr sg L hL
  refine ⟨by decide, ?_, ?_, ?_⟩
  · have hpost : ("OUTPUT_FILE=" ++ resolve h.job_directory h.output)
        ∈ bodyPost sr (resolve h.job_directory h.output) := by
      unfold bodyPost
      simp
    split
    · exact List.mem_append_left _ (List.mem_append_right _
        (List.mem_append_right _ (List.mem_append_right _ hpost)))
    · exact List.mem_append_right _
        (List.mem_append_right _ (List.mem_append_right _ hpost))
  · intro hne
    rw [if_pos hne]
    constructor
    · refine List.mem_append_right _ ?_
      unfold errLines
      simp
    · refine List.mem_append_right _ ?_
      unfold errLines
      simp
  · intro heq
    rw [if_neg (by simp [heq])]
    intro hmem
    obtain ⟨jd, rfl⟩ := header_ok_elim h hdr hh
    rcases List.mem_append.mp hmem with hhd | hrest
    · exact absurd (header_line_head h jd _ hhd) (by decide)
    rcases List.mem_append.mp hrest with hpre | hrest2
    · exact absurd hpre (errcp_not_mem_bodyPre h py sg sargs)
    rcases List.mem_append.mp hrest2 with hsr | hpost
    · exact absurd hsr (errcp_not_mem_srun sr srunL hs)
    · exact absurd hpost (errcp_not_mem_bodyPost sr _)

/-- C6 (witness): the concrete configuration `hdrErr` (error pattern `e.err`
differs from the output pattern), whose script contains the error copy-back
block. -/
theorem error_copyback_iff_witness :
    ("ERROR_FILE=" ++ resolve hdrErr.job_directory hdrErr.error) ∈ genEL
    ∧ ("cp ${ERROR_FILE} ${JOBDIR}/${ERROR_FILE}" : String) ∈ genEL :=
  (error_copyback_iff hdrErr pyC srunC sgC genEL rfl).2.2.1 (by decide)
